import Mathlib

/-!
Verification of the news-analysis service (api.py, utils.py, app.py).

The Python code is shallowly embedded: every network call and pretrained
model (news API, HTTP fetch of article pages, the sentiment classifier,
spaCy NER, translation + TTS) is an oracle passed in as a function
parameter; the code around the oracles is translated statement by
statement. Python exceptions are modelled with `Except PyErr`; a Python
dict is an association list so that a lookup of an absent key yields
`KeyError` exactly as in Python.
-/

namespace NewsAnalyzer

/-- The Python exception values the modelled code can raise or receive. -/
inductive PyErr where
  | typeError (msg : String)
  | keyError (key : String)
  | runtimeError (msg : String)
  | httpStatusError (status : Nat)
  /-- `fastapi.HTTPException`; it subclasses `Exception`, so a bare
  `except Exception` catches it like any other error. -/
  | httpException (status : Nat) (detail : String)
  | other (msg : String)
deriving Repr, DecidableEq

/-- `str(e)` surrogate used where the code interpolates an exception. -/
def pyErrMsg : PyErr → String
  | PyErr.typeError m => m
  | PyErr.keyError k => k
  | PyErr.runtimeError m => m
  | PyErr.httpStatusError s => "HTTP error " ++ toString s
  | PyErr.httpException _ d => d
  | PyErr.other m => m

/-- Python `d[k]` on a dict modelled as an association list:
`KeyError` when the key is absent. -/
def dictGet {α : Type} (d : List (String × α)) (k : String) : Except PyErr α :=
  match d.lookup k with
  | some v => Except.ok v
  | none => Except.error (PyErr.keyError k)

/-- Python `text[:n]`: the first `n` characters (code points) of a string. -/
def pySlice (text : String) (n : Nat) : String :=
  String.mk (text.data.take n)

/-- Python `s.startswith(pre)`: the characters of `pre` lead those of `s`. -/
def py_startswith (s pre : String) : Bool :=
  pre.data.isPrefixOf s.data

/-! ## utils.py: fetch_news_articles -/

/-- One article reference as consumed by the orchestrator (`item['url']`).
The other NewsAPI fields never reach the modelled code paths. -/
structure NewsItem where
  url : String
deriving Repr, DecidableEq

/-- `fetch_news_articles(company: str, api_key: str, max_results: int = 10)`:
its required positional parameters (`company`, `api_key`). -/
def fetch_required_positional : Nat := 2

/-- api.py line 25, `fetch_news_articles(company)`: positional arguments
actually supplied at the orchestrator's call site. -/
def fetch_supplied_positional : Nat := 1

/-- The orchestrator's call of the fetcher, with Python's calling
convention made explicit: a call supplying fewer positional arguments than
the callee's required positional parameters raises `TypeError` before the
body runs. `fetchImpl` is the fetcher's body (network I/O) as an oracle of
`company` and `api_key`. -/
def fetch_call_line_25 (fetchImpl : String → String → List NewsItem)
    (company : String) : Except PyErr (List NewsItem) :=
  if fetch_supplied_positional < fetch_required_positional then
    Except.error (PyErr.typeError
      "fetch_news_articles() missing 1 required positional argument: 'api_key'")
  else
    Except.ok (fetchImpl company "")

/-! ## utils.py: scrape_article_content -/

/-- The parsed page (`BeautifulSoup(response.text, "html.parser")`),
abstracted to exactly the queries the scraper makes of it. -/
structure Soup where
  /-- `soup.title.text` when a `<title>` element exists. -/
  title : Option String
  /-- the raw `content` attribute of `<meta name="description">` when that
  tag exists and carries the attribute. -/
  metaDescription : Option String
  /-- the raw `content` attribute of `<meta property="og:description">`. -/
  ogDescription : Option String
  /-- paragraph texts (`p.get_text(strip=True)`) inside an `<article>`
  element, when one exists. -/
  articleParagraphs : Option (List String)
  /-- paragraph texts of the whole document. -/
  bodyParagraphs : List String
deriving Repr

/-- `requests.get(url, timeout=10)`: status code and parsed body. -/
structure HttpResponse where
  status : Nat
  soup : Soup

/-- The description chosen by `if tag and tag.get("content")`: the raw
attribute when the tag exists and the attribute is truthy (non-empty). -/
def truthyAttr (attr : Option String) : Option String :=
  match attr with
  | some s => if s = "" then none else some s
  | none => none

/-- `soup.title.text.strip() if soup.title else "No title available"`. -/
def scrape_title (soup : Soup) : String :=
  match soup.title with
  | some t => t.trim
  | none => "No title available"

/-- The meta-description / og:description priority chain: the stripped
attribute of the first truthy tag, else the empty string. -/
def scrape_desc (soup : Soup) : String :=
  match truthyAttr soup.metaDescription with
  | some s => s.trim
  | none =>
    match truthyAttr soup.ogDescription with
    | some s => s.trim
    | none => ""

/-- The paragraph fallback: `"\n".join(...)` over the `<article>`
element's paragraphs when one exists, else the whole document's. -/
def scrape_paras (soup : Soup) : String :=
  String.intercalate "\n"
    (match soup.articleParagraphs with
     | some ps => ps
     | none => soup.bodyParagraphs)

/-- The content after the `if not content or len(content) < 100` fallback. -/
def scrape_content (soup : Soup) : String :=
  let content := scrape_desc soup
  if content = "" || content.length < 100 then scrape_paras soup else content

/-- The pure extraction logic of `scrape_article_content` applied to a
parsed page, ending in the `content or "No content available."` default. -/
def scrape_extract (soup : Soup) : List (String × String) :=
  [("title", scrape_title soup),
   ("content", if scrape_content soup = "" then "No content available." else scrape_content soup)]

/-- The body of the scraper's `try` block: fetch, `raise_for_status()`,
extract. `http` is the network oracle. -/
def scrape_try (http : String → Except PyErr HttpResponse) (url : String) :
    Except PyErr (List (String × String)) :=
  match http url with
  | Except.error e => Except.error e
  | Except.ok resp =>
    if 400 ≤ resp.status then Except.error (PyErr.httpStatusError resp.status)
    else Except.ok (scrape_extract resp.soup)

/-- `scrape_article_content(url)`: any exception in the `try` block is
converted into `{"title": "Error", "content": f"Error scraping article: {e}"}`;
the function itself never raises. -/
def scrape_article_content (http : String → Except PyErr HttpResponse)
    (url : String) : List (String × String) :=
  match scrape_try http url with
  | Except.ok d => d
  | Except.error e =>
    [("title", "Error"), ("content", "Error scraping article: " ++ pyErrMsg e)]

/-! ## utils.py: analyze_sentiment -/

/-- The `label_map` dict of `analyze_sentiment`. -/
def label_map : List (String × String) :=
  [("LABEL_0", "Negative"), ("LABEL_1", "Neutral"), ("LABEL_2", "Positive")]

/-- `analyze_sentiment(text)`: truncate to 512 characters, classify, map
the raw label through `label_map.get(label, 'Neutral')`; a classifier
exception is re-raised as `RuntimeError`. `classifier` is the pretrained
pipeline as an oracle from the truncated text to its raw label. -/
def analyze_sentiment (classifier : String → Except PyErr String)
    (text : String) : Except PyErr String :=
  match classifier (pySlice text 512) with
  | Except.ok label => Except.ok ((label_map.lookup label).getD "Neutral")
  | Except.error e =>
    Except.error (PyErr.runtimeError ("Sentiment analysis failed: " ++ pyErrMsg e))

/-! ## utils.py: extract_key_topics -/

/-- One spaCy entity: its surface text and NER label. -/
structure Entity where
  text : String
  label : String
deriving Repr, DecidableEq

/-- `extract_key_topics(text, max_topics=5)`: keep entities labelled
ORG/PRODUCT/GPE/NORP, deduplicate via a set, truncate. `nlp` is the spaCy
model as an oracle from text to its recognised entities. `List.dedup`
models `list(set(...))`: some duplicate-free enumeration of the set. -/
def extract_key_topics (nlp : String → List Entity) (text : String)
    (max_topics : Nat := 5) : List String :=
  ((((nlp text).filter
      (fun e => decide (e.label ∈ ["ORG", "PRODUCT", "GPE", "NORP"]))).map
    Entity.text).dedup).take max_topics

/-! ## api.py: the /analyze orchestrator -/

/-- One entry of `processed_articles` (the dict built at api.py lines 36–41). -/
structure ProcessedArticle where
  title : String
  summary : String
  sentiment : String
  topics : List String
deriving Repr, DecidableEq

/-- The oracles the orchestrator's per-article step draws on: the scraper
(as called, a total function returning the scraped dict), the sentiment
classifier and the NER model. -/
structure Env where
  scrape : String → List (String × String)
  classify : String → Except PyErr String
  nlp : String → List Entity

/-- What one iteration of the orchestrator's `for` loop did with one
reference: the article appended (if any), plus instrumentation — whether
`scrape_article_content` was invoked, and whether the iteration ended at
the `if not article['content']: continue` branch. -/
structure StepTrace where
  result : Option ProcessedArticle
  scrapeInvoked : Bool
  emptyContentSkip : Bool
deriving Repr, DecidableEq

/-- One iteration of the loop at api.py lines 28–44: the inner `try`.
Skip non-http urls before scraping; scrape; skip empty content; build the
processed dict, whose values are evaluated left to right — `article['title']`,
`article['summary']`, `analyze_sentiment(...)`, `extract_key_topics(...)` —
and any exception (a `KeyError` from a missing dict key, the `RuntimeError`
from `analyze_sentiment`) is caught by `except Exception` and turns the
iteration into a skip. -/
def process_item (env : Env) (item : NewsItem) : StepTrace :=
  if !py_startswith item.url "http" then
    { result := none, scrapeInvoked := false, emptyContentSkip := false }
  else
    let article := env.scrape item.url
    match dictGet article "content" with
    | Except.error _ => { result := none, scrapeInvoked := true, emptyContentSkip := false }
    | Except.ok content =>
      if content = "" then
        { result := none, scrapeInvoked := true, emptyContentSkip := true }
      else
        match dictGet article "title" with
        | Except.error _ => { result := none, scrapeInvoked := true, emptyContentSkip := false }
        | Except.ok title =>
          match dictGet article "summary" with
          | Except.error _ => { result := none, scrapeInvoked := true, emptyContentSkip := false }
          | Except.ok summary =>
            match analyze_sentiment env.classify content with
            | Except.error _ =>
              { result := none, scrapeInvoked := true, emptyContentSkip := false }
            | Except.ok sentiment =>
              let a : ProcessedArticle :=
                { title := title, summary := summary, sentiment := sentiment,
                  topics := extract_key_topics env.nlp content }
              { result := some a, scrapeInvoked := true, emptyContentSkip := false }

/-- The `tts_summary` line of api.py. -/
def tts_summary (company : String) (count : Nat) : String :=
  company ++ " analysis: " ++ toString count ++ " articles processed"

/-- The JSON body api.py returns on success. -/
structure AnalyzeOutput where
  company : String
  articles : List ProcessedArticle
  tts_path : String
deriving Repr, DecidableEq

/-- The body of the endpoint's outer `try` block, given what the fetch
call produced and the TTS oracle `tts` (`generate_hindi_tts` offloaded to
the executor). Returns the raised exception or the success dict, paired
with whether TTS was invoked. Zero surviving articles raise
`HTTPException(404, "No articles could be processed")` here. -/
def analyze_try (env : Env) (tts : String → Except PyErr String) (company : String)
    (fetchResult : Except PyErr (List NewsItem)) :
    Except PyErr AnalyzeOutput × Bool :=
  match fetchResult with
  | Except.error e => (Except.error e, false)
  | Except.ok news_items =>
    let processed := (news_items.map (process_item env)).filterMap StepTrace.result
    if processed.isEmpty then
      (Except.error (PyErr.httpException 404 "No articles could be processed"), false)
    else
      match tts (tts_summary company processed.length) with
      | Except.error e => (Except.error e, true)
      | Except.ok path =>
        (Except.ok { company := company, articles := processed, tts_path := path }, true)

/-- What the endpoint sends the client. -/
inductive Response where
  | success (body : AnalyzeOutput)
  | httpError (status : Nat) (detail : String)
deriving Repr, DecidableEq

/-- `analyze_company_news` downstream of the fetch call: the outer
`except Exception` catches EVERY exception the `try` block raises —
including the `HTTPException(404)` raised for zero processed articles,
since `HTTPException` subclasses `Exception` — and replaces it with
`HTTPException(500, "Internal server error")`. -/
def analyze_company_news (env : Env) (tts : String → Except PyErr String)
    (company : String) (fetchResult : Except PyErr (List NewsItem)) :
    Response × Bool :=
  match analyze_try env tts company fetchResult with
  | (Except.ok body, ttsInvoked) => (Response.success body, ttsInvoked)
  | (Except.error _, ttsInvoked) =>
    (Response.httpError 500 "Internal server error", ttsInvoked)

/-- The whole endpoint: the fetch call exactly as written at api.py line
25 (one positional argument), then the rest of the handler. -/
def analyze_endpoint (env : Env) (tts : String → Except PyErr String)
    (fetchImpl : String → String → List NewsItem) (company : String) :
    Response × Bool :=
  analyze_company_news env tts company (fetch_call_line_25 fetchImpl company)

/-! ## app.py: the frontend's reading of the success response -/

/-- A JSON value, enough for the endpoint's success body. -/
inductive JValue where
  | str (s : String)
  | arr (elems : List JValue)
  | obj (fields : List (String × JValue))

/-- One article of the success body, serialised. -/
def article_json (a : ProcessedArticle) : JValue :=
  JValue.obj [("title", JValue.str a.title), ("summary", JValue.str a.summary),
    ("sentiment", JValue.str a.sentiment),
    ("topics", JValue.arr (a.topics.map JValue.str))]

/-- The JSON object returned at api.py lines 62–66, keys in source order:
`company`, `articles`, `tts_path`. -/
def response_json (body : AnalyzeOutput) : List (String × JValue) :=
  [("company", JValue.str body.company),
   ("articles", JValue.arr (body.articles.map article_json)),
   ("tts_path", JValue.str body.tts_path)]

/-- app.py line 43: the key under which the frontend reads the audio path
from the response (`data['tts_url']`). -/
def frontend_audio_key : String := "tts_url"

/-- The frontend's `data['tts_url']` lookup on the decoded response. -/
def frontend_audio_lookup (data : List (String × JValue)) : Except PyErr JValue :=
  dictGet data frontend_audio_key

/-! ## Concrete instantiations of the oracles, used by witnesses and
counterexamples -/

/-- A benign environment: every page scrapes to a fixed title and body. -/
def sample_env : Env :=
  { scrape := fun _ => [("title", "A title"), ("content", "Some body text")],
    classify := fun _ => Except.ok "LABEL_2",
    nlp := fun _ => [] }

/-- A TTS oracle that always succeeds. -/
def sample_tts : String → Except PyErr String :=
  fun _ => Except.ok "/tmp/tmp1234.wav"

/-- The spec's Tesla scenario: three references — one non-http, one that
scrapes to empty content, one that scrapes successfully. -/
def tesla_items : List NewsItem :=
  [{ url := "ftp://mirror.example/story" },
   { url := "http://news.example/empty" },
   { url := "http://news.example/good" }]

/-- The scenario's oracles: the stipulated scrape outcomes, a classifier
and NER model that always succeed. -/
def tesla_env : Env :=
  { scrape := fun url =>
      if url = "http://news.example/empty" then
        [("title", "Empty page"), ("content", "")]
      else
        [("title", "Tesla surges"), ("content", "Tesla shares jumped after earnings.")],
    classify := fun _ => Except.ok "LABEL_2",
    nlp := fun _ => [{ text := "Tesla", label := "ORG" }] }

/-- An HTTP oracle on which every fetch raises. -/
def failing_http : String → Except PyErr HttpResponse :=
  fun _ => Except.error (PyErr.other "connection refused")

/-- The real scraper over `failing_http`, with benign model oracles. -/
def failing_scrape_env : Env :=
  { scrape := scrape_article_content failing_http,
    classify := fun _ => Except.ok "LABEL_0",
    nlp := fun _ => [] }

/-- 512 copies of `a` followed by `x`. -/
def long_text_x : String := String.mk (List.replicate 512 'a' ++ ['x'])

/-- 512 copies of `a` followed by `y`: agrees with `long_text_x` on the
first 512 characters and differs afterwards. -/
def long_text_y : String := String.mk (List.replicate 512 'a' ++ ['y'])

/-- A constant classifier oracle. -/
def const_classifier : String → Except PyErr String :=
  fun _ => Except.ok "LABEL_2"

/-! ## Helper lemmas -/

/-- The scraper's error content is never the empty string. -/
theorem scrape_error_content_ne_empty (s : String) :
    "Error scraping article: " ++ s ≠ "" := by
  intro h
  have h2 : ("Error scraping article: " ++ s).data = "".data := congrArg String.data h
  rw [String.data_append] at h2
  have h3 : "Error scraping article: ".data = [] := (List.append_eq_nil.mp h2).1
  exact absurd h3 (by decide)

/-- Whatever the HTTP oracle does, `scrape_article_content` returns a
two-entry dict with exactly the keys `title` and `content` (in that
order), and the content value is non-empty. -/
theorem scrape_shape (http : String → Except PyErr HttpResponse) (url : String) :
    ∃ t c, scrape_article_content http url = [("title", t), ("content", c)] ∧ c ≠ "" := by
  cases hh : http url with
  | error e =>
    refine ⟨"Error", "Error scraping article: " ++ pyErrMsg e, ?_, scrape_error_content_ne_empty _⟩
    simp [scrape_article_content, scrape_try, hh]
  | ok resp =>
    by_cases hs : 400 ≤ resp.status
    · refine ⟨"Error", "Error scraping article: " ++ pyErrMsg (PyErr.httpStatusError resp.status),
        ?_, scrape_error_content_ne_empty _⟩
      simp [scrape_article_content, scrape_try, hh, hs]
    · have hx : scrape_article_content http url = scrape_extract resp.soup := by
        simp [scrape_article_content, scrape_try, hh, hs]
      by_cases hc : scrape_content resp.soup = ""
      · exact ⟨scrape_title resp.soup, "No content available.",
          by rw [hx]; simp [scrape_extract, hc], by decide⟩
      · exact ⟨scrape_title resp.soup, scrape_content resp.soup,
          by rw [hx]; simp [scrape_extract, hc], hc⟩

/-- Any reference whose scrape yields the two-key `title`/`content` dict
with non-empty content is skipped by the per-article step: the `summary`
lookup raises `KeyError`, which the inner `except` turns into a skip.
In particular sentiment and topic extraction never run. -/
theorem process_item_scraped (env : Env) (item : NewsItem) (t c : String)
    (hu : py_startswith item.url "http" = true)
    (hs : env.scrape item.url = [("title", t), ("content", c)])
    (hc : c ≠ "") :
    process_item env item =
      { result := none, scrapeInvoked := true, emptyContentSkip := false } := by
  unfold process_item
  rw [hu, hs]
  simp [dictGet, List.lookup, hc]

/-- A raw label equal to none of the three keys misses `label_map`. -/
theorem label_map_lookup_eq_none (label : String)
    (h0 : label ≠ "LABEL_0") (h1 : label ≠ "LABEL_1") (h2 : label ≠ "LABEL_2") :
    label_map.lookup label = none := by
  have b0 : (label == "LABEL_0") = false := beq_eq_false_iff_ne.mpr h0
  have b1 : (label == "LABEL_1") = false := beq_eq_false_iff_ne.mpr h1
  have b2 : (label == "LABEL_2") = false := beq_eq_false_iff_ne.mpr h2
  simp [label_map, List.lookup_cons, b0, b1, b2]

/-- `label_map.get(label, 'Neutral')` lands in the three-value range. -/
theorem label_map_getD_mem (label : String) :
    (label_map.lookup label).getD "Neutral" = "Negative" ∨
    (label_map.lookup label).getD "Neutral" = "Neutral" ∨
    (label_map.lookup label).getD "Neutral" = "Positive" := by
  by_cases h0 : label = "LABEL_0"
  · subst h0; left; rfl
  by_cases h1 : label = "LABEL_1"
  · subst h1; right; left; rfl
  by_cases h2 : label = "LABEL_2"
  · subst h2; right; right; rfl
  · rw [label_map_lookup_eq_none label h0 h1 h2]; right; left; rfl

/-! ## Claim theorems -/

/-- C1: when zero articles survive per-article processing, the handler
raises `HTTPException(404)` internally, but the endpoint does NOT fail
with a 404: the outer `except Exception` catches the `HTTPException`
(which subclasses `Exception`) and replaces it with the generic 500. A
success with an empty article list is indeed never returned, and TTS is
indeed not invoked, but the client-visible error class is 500, not 404. -/
theorem zero_survivors_give_500_not_404 :
    ∀ (env : Env) (tts : String → Except PyErr String) (company : String)
      (items : List NewsItem),
      (items.map (process_item env)).filterMap StepTrace.result = [] →
      analyze_try env tts company (Except.ok items) =
        (Except.error (PyErr.httpException 404 "No articles could be processed"), false) ∧
      analyze_company_news env tts company (Except.ok items) =
        (Response.httpError 500 "Internal server error", false) := by
  intro env tts company items h
  have h1 : analyze_try env tts company (Except.ok items) =
      (Except.error (PyErr.httpException 404 "No articles could be processed"), false) := by
    simp [analyze_try, h]
  exact ⟨h1, by simp [analyze_company_news, h1]⟩

/-- Witness for C1's theorem: the fetcher returning zero references. -/
theorem zero_survivors_give_500_not_404_witness :
    analyze_try sample_env sample_tts "Tesla" (Except.ok []) =
      (Except.error (PyErr.httpException 404 "No articles could be processed"), false) ∧
    analyze_company_news sample_env sample_tts "Tesla" (Except.ok []) =
      (Response.httpError 500 "Internal server error", false) :=
  zero_survivors_give_500_not_404 sample_env sample_tts "Tesla" [] rfl

/-- C2: the call site `fetch_news_articles(company)` supplies one
positional argument while the callee requires two, so the fetch step
raises `TypeError` on every request; the endpoint therefore always
answers with the generic 500 error — never a success — and never
reaches TTS. -/
theorem endpoint_always_500 :
    ∀ (env : Env) (tts : String → Except PyErr String)
      (fetchImpl : String → String → List NewsItem) (company : String),
      fetch_call_line_25 fetchImpl company =
        Except.error (PyErr.typeError
          "fetch_news_articles() missing 1 required positional argument: 'api_key'") ∧
      analyze_endpoint env tts fetchImpl company =
        (Response.httpError 500 "Internal server error", false) :=
  fun _ _ _ _ => ⟨rfl, rfl⟩

/-- C5: the success response's keys are `company`, `articles`, `tts_path`,
but the frontend reads the audio path under `tts_url` (app.py line 43),
so its lookup raises `KeyError` on every success response; the path is in
fact available under `tts_path`. -/
theorem frontend_audio_lookup_fails :
    ∀ (body : AnalyzeOutput),
      frontend_audio_lookup (response_json body) =
        Except.error (PyErr.keyError "tts_url") ∧
      (response_json body).lookup "tts_path" = some (JValue.str body.tts_path) :=
  fun _ => ⟨rfl, rfl⟩

/-- C8: a reference whose URL does not start with `http` is skipped by the
`continue` at api.py line 31 before `scrape_article_content` is invoked. -/
theorem non_http_never_scraped :
    ∀ (env : Env) (item : NewsItem),
      py_startswith item.url "http" = false →
      (process_item env item).scrapeInvoked = false := by
  intro env item h
  simp [process_item, h]

/-- Witness for C8's theorem: an `ftp://` reference. -/
theorem non_http_never_scraped_witness :
    (process_item sample_env { url := "ftp://mirror.example/story" }).scrapeInvoked = false :=
  non_http_never_scraped sample_env { url := "ftp://mirror.example/story" } (by decide)

/-- C10: `analyze_sentiment` truncates its input to the first 512
characters before consulting the classifier, so with the classifier a
fixed deterministic oracle, two texts agreeing on their first 512
characters get the same sentiment. -/
theorem sentiment_only_first_512_chars :
    ∀ (classifier : String → Except PyErr String) (t1 t2 : String),
      t1.data.take 512 = t2.data.take 512 →
      analyze_sentiment classifier t1 = analyze_sentiment classifier t2 := by
  intro classifier t1 t2 h
  unfold analyze_sentiment pySlice
  rw [h]

/-- Witness for C10's theorem: two 513-character texts that differ only
in their last character. -/
theorem sentiment_only_first_512_chars_witness :
    analyze_sentiment const_classifier long_text_x =
      analyze_sentiment const_classifier long_text_y :=
  sentiment_only_first_512_chars const_classifier long_text_x long_text_y (by
    show (List.replicate 512 'a' ++ ['x']).take 512 =
      (List.replicate 512 'a' ++ ['y']).take 512
    have hl : (List.replicate 512 'a').length = 512 := List.length_replicate 512 'a'
    rw [List.take_append_of_le_length (le_of_eq hl.symm),
      List.take_append_of_le_length (le_of_eq hl.symm)])

/-- C6: every successful `analyze_sentiment` result is one of Negative,
Neutral, Positive, and a raw classifier label other than LABEL_0/1/2 is
mapped to Neutral by `label_map.get(label, 'Neutral')`. -/
theorem sentiment_range_and_unknown_label_neutral :
    ∀ (classifier : String → Except PyErr String) (text : String),
      (∀ r, analyze_sentiment classifier text = Except.ok r →
        r = "Negative" ∨ r = "Neutral" ∨ r = "Positive") ∧
      (∀ label, classifier (pySlice text 512) = Except.ok label →
        label ∉ (["LABEL_0", "LABEL_1", "LABEL_2"] : List String) →
        analyze_sentiment classifier text = Except.ok "Neutral") := by
  intro classifier text
  constructor
  · intro r h
    unfold analyze_sentiment at h
    cases hc : classifier (pySlice text 512) with
    | error e => rw [hc] at h; exact absurd h (by simp)
    | ok label =>
      rw [hc] at h
      have hr : (label_map.lookup label).getD "Neutral" = r := by
        injection h
      rw [← hr]
      exact label_map_getD_mem label
  · intro label hc hmem
    have h0 : label ≠ "LABEL_0" := fun h => hmem (by rw [h]; simp)
    have h1 : label ≠ "LABEL_1" := fun h => hmem (by rw [h]; simp)
    have h2 : label ≠ "LABEL_2" := fun h => hmem (by rw [h]; simp)
    have hnone := label_map_lookup_eq_none label h0 h1 h2
    simp [analyze_sentiment, hc, hnone]

/-- C7: `extract_key_topics` returns at most five pairwise-distinct
strings, each the text of an entity the NER oracle tagged ORG, PRODUCT,
GPE or NORP. -/
theorem topics_at_most_five_nodup_allowed_labels :
    ∀ (nlp : String → List Entity) (text : String),
      (extract_key_topics nlp text).length ≤ 5 ∧
      (extract_key_topics nlp text).Nodup ∧
      ∀ s ∈ extract_key_topics nlp text, ∃ e, e ∈ nlp text ∧ e.text = s ∧
        (e.label = "ORG" ∨ e.label = "PRODUCT" ∨ e.label = "GPE" ∨ e.label = "NORP") := by
  intro nlp text
  unfold extract_key_topics
  refine ⟨List.length_take_le _ _,
    List.Nodup.sublist (List.take_sublist _ _) (List.nodup_dedup _), ?_⟩
  intro s hs
  have hs1 := List.mem_of_mem_take hs
  have hs2 := List.mem_dedup.mp hs1
  obtain ⟨e, he, het⟩ := List.mem_map.mp hs2
  have hef := List.mem_filter.mp he
  refine ⟨e, hef.1, het, ?_⟩
  have hd := of_decide_eq_true hef.2
  simpa using hd

/-- C9: for every URL and HTTP oracle, the scraped dict's `content` value
is a non-empty string (extracted text, the placeholder, or an error
description) — `scrape_article_content` is a total function, it raises
nothing — so the orchestrator's `if not article['content']: continue`
branch is unreachable whenever the scraper is the real
`scrape_article_content`. -/
theorem scraped_content_never_empty :
    ∀ (http : String → Except PyErr HttpResponse) (url : String),
      (∃ c, dictGet (scrape_article_content http url) "content" = Except.ok c ∧ c ≠ "") ∧
      ∀ (classify : String → Except PyErr String) (nlp : String → List Entity)
        (item : NewsItem),
        (process_item
          { scrape := scrape_article_content http, classify := classify, nlp := nlp }
          item).emptyContentSkip = false := by
  intro http url
  constructor
  · obtain ⟨t, c, hshape, hc⟩ := scrape_shape http url
    exact ⟨c, by rw [hshape]; rfl, hc⟩
  · intro classify nlp item
    cases hu : py_startswith item.url "http" with
    | false => simp [process_item, hu]
    | true =>
      obtain ⟨t, c, hshape, hc⟩ := scrape_shape http item.url
      rw [process_item_scraped _ item t c hu hshape hc]

/-- C4 (amended): whenever the scraper's `try` block raises internally —
a transport failure from `requests.get` or the `raise_for_status` raise
on an HTTP error status alike — the scraper returns title `Error` with a
non-empty error-description content, and the orchestrator's
empty-content check indeed does not filter that record out; but the
record does NOT pass through as a processable article — like every
scraped record it is skipped when building the processed dict raises
`KeyError` on the absent `summary` key. -/
theorem scrape_error_record_skipped_at_summary :
    ∀ (http : String → Except PyErr HttpResponse)
      (classify : String → Except PyErr String) (nlp : String → List Entity)
      (item : NewsItem) (e : PyErr),
      scrape_try http item.url = Except.error e →
      py_startswith item.url "http" = true →
      scrape_article_content http item.url =
        [("title", "Error"), ("content", "Error scraping article: " ++ pyErrMsg e)] ∧
      "Error scraping article: " ++ pyErrMsg e ≠ "" ∧
      process_item
        { scrape := scrape_article_content http, classify := classify, nlp := nlp }
        item =
        { result := none, scrapeInvoked := true, emptyContentSkip := false } := by
  intro http classify nlp item e htry hu
  have hshape : scrape_article_content http item.url =
      [("title", "Error"), ("content", "Error scraping article: " ++ pyErrMsg e)] := by
    simp [scrape_article_content, htry]
  exact ⟨hshape, scrape_error_content_ne_empty _,
    process_item_scraped _ item _ _ hu hshape (scrape_error_content_ne_empty _)⟩

/-- Witness for C4's amended theorem: a URL on which the HTTP fetch
raises `connection refused`. -/
theorem scrape_error_record_skipped_at_summary_witness :
    scrape_article_content failing_http "http://news.example/down" =
      [("title", "Error"),
       ("content", "Error scraping article: " ++ pyErrMsg (PyErr.other "connection refused"))] ∧
    "Error scraping article: " ++ pyErrMsg (PyErr.other "connection refused") ≠ "" ∧
    process_item failing_scrape_env { url := "http://news.example/down" } =
      { result := none, scrapeInvoked := true, emptyContentSkip := false } :=
  scrape_error_record_skipped_at_summary failing_http
    (fun _ => Except.ok "LABEL_0") (fun _ => [])
    { url := "http://news.example/down" } (PyErr.other "connection refused") rfl (by decide)

/-- C4 counterexample: a concrete scrape failure whose record survives
the empty-content check yet is not processed — refuting that scrape
failures pass through per-article processing as processable articles. -/
theorem scrape_error_not_processed_counterexample :
    dictGet (failing_scrape_env.scrape "http://news.example/down") "content" =
      Except.ok "Error scraping article: connection refused" ∧
    (process_item failing_scrape_env { url := "http://news.example/down" }).emptyContentSkip
      = false ∧
    (process_item failing_scrape_env { url := "http://news.example/down" }).result = none :=
  ⟨rfl, rfl, rfl⟩

/-- C3: the spec's Tesla scenario (three references: one non-http, one
scraping to empty content, one scraping successfully) produces ZERO
processed articles, not one: the surviving reference is skipped when
`article['summary']` raises `KeyError` (the scraped dict only has `title`
and `content`), so the request fails with the generic 500. -/
theorem tesla_scenario_zero_processed :
    ((tesla_items.map (process_item tesla_env)).filterMap StepTrace.result).length = 0 ∧
    analyze_company_news tesla_env sample_tts "Tesla" (Except.ok tesla_items) =
      (Response.httpError 500 "Internal server error", false) ∧
    dictGet (tesla_env.scrape "http://news.example/good") "summary" =
      Except.error (PyErr.keyError "summary") :=
  ⟨rfl, rfl, rfl⟩

end NewsAnalyzer
